import Mathlib

/-!
Verification of the TEC (thermoelectric cooler) steady-state model.

The device model (`src/tec_model/thermoelectric_cooler.py`) is a record of
datasheet ratings plus pure arithmetic functions over Python floats.  We embed
the arithmetic over `ℚ`.  Python float division raises `ZeroDivisionError` on a
zero denominator, so every function whose source performs a division is embedded
as an `Option`-valued function: `none` models the raised exception, `some x`
models a normal return.
-/

/-- Python float division: raises (here: `none`) on a zero denominator,
otherwise returns the exact quotient. -/
def pydiv (a b : ℚ) : Option ℚ :=
  if b = 0 then none else some (a / b)

/-- Datasheet record of a TEC module
(`ThermoElectricCooler` in `thermoelectric_cooler.py`). -/
structure ThermoElectricCooler where
  mfn : String
  datasheet_link : String
  v_max : ℚ
  i_max : ℚ
  q_max_27 : ℚ
  q_max_50 : ℚ
  delta_t_max_27 : ℚ
  delta_t_max_50 : ℚ
deriving DecidableEq

namespace ThermoElectricCooler

/-- `figure_of_merit`: `2 * delta_t_max_27 / (t_hot - delta_t_max_27) ** 2`. -/
def figure_of_merit (self : ThermoElectricCooler) (t_hot : ℚ) : Option ℚ :=
  pydiv (2 * self.delta_t_max_27) ((t_hot - self.delta_t_max_27) ^ 2)

/-- `seebeck_coefficient`: `v_max / t_hot`. -/
def seebeck_coefficient (self : ThermoElectricCooler) (t_hot : ℚ) : Option ℚ :=
  pydiv self.v_max t_hot

/-- `thermal_conductance`:
`((t_hot - delta_t_max_27) * v_max * i_max) / (2 * t_hot * delta_t_max_27)`. -/
def thermal_conductance (self : ThermoElectricCooler) (t_hot : ℚ) : Option ℚ :=
  pydiv ((t_hot - self.delta_t_max_27) * self.v_max * self.i_max)
    (2 * t_hot * self.delta_t_max_27)

/-- `module_resistance`: `(t_hot - delta_t_max_27) * v_max / (t_hot * i_max)`. -/
def module_resistance (self : ThermoElectricCooler) (t_hot : ℚ) : Option ℚ :=
  pydiv ((t_hot - self.delta_t_max_27) * self.v_max) (t_hot * self.i_max)

/-- `cooling_power`: computes `r`, `s_m`, `k_m` in source order, then returns
`(s_m * t_cold * i) - (0.5 * i**2 * r) - (k_m * dt)` with `dt = t_hot - t_cold`. -/
def cooling_power (self : ThermoElectricCooler) (current t_hot t_cold : ℚ) : Option ℚ :=
  (self.module_resistance t_hot).bind fun r =>
  (self.seebeck_coefficient t_hot).bind fun s_m =>
  (self.thermal_conductance t_hot).bind fun k_m =>
  some (s_m * t_cold * current - 0.5 * current ^ 2 * r - k_m * (t_hot - t_cold))

/-- `voltage`: `s_m * dt + r * i` with `dt = t_hot - t_cold`. -/
def voltage (self : ThermoElectricCooler) (current t_hot t_cold : ℚ) : Option ℚ :=
  (self.module_resistance t_hot).bind fun r =>
  (self.seebeck_coefficient t_hot).bind fun s_m =>
  some (s_m * (t_hot - t_cold) + r * current)

/-- `operating_params`: voltage, then `electrical_power = voltage * current`,
then cooling power and figure of merit, then
`coefficient_of_performance = cooling_power / electrical_power` (this division
raises when `electrical_power == 0`), returning the 4-tuple. -/
def operating_params (self : ThermoElectricCooler) (current t_hot t_cold : ℚ) :
    Option (ℚ × ℚ × ℚ × ℚ) :=
  (self.voltage current t_hot t_cold).bind fun voltage =>
  (self.cooling_power current t_hot t_cold).bind fun cooling_power =>
  (self.figure_of_merit t_hot).bind fun figure_of_merit =>
  (pydiv cooling_power (voltage * current)).bind fun coefficient_of_performance =>
  some (voltage, cooling_power, coefficient_of_performance, figure_of_merit)

/-- `coefficient_of_performance`: standalone accessor, same computation as the
COP component of `operating_params` but without the figure of merit. -/
def coefficient_of_performance (self : ThermoElectricCooler) (current t_hot t_cold : ℚ) :
    Option ℚ :=
  (self.voltage current t_hot t_cold).bind fun voltage =>
  (self.cooling_power current t_hot t_cold).bind fun cooling_power =>
  pydiv cooling_power (voltage * current)

end ThermoElectricCooler

/-- `CP353047` from `cui_devices_cp35.py`. -/
def CP353047 : ThermoElectricCooler where
  mfn := "CP353047"
  datasheet_link := "https://www.cuidevices.com/product/resource/cp35.pdf"
  v_max := 11.8
  i_max := 3.5
  q_max_27 := 24.0
  q_max_50 := 26.0
  delta_t_max_27 := 70.0
  delta_t_max_50 := 77.0

/-- One computed point of the sweep in `plot_operating_regions`: the per-current
loop body records voltage, cooling power, COP, figure of merit, and
`t_ambient = t_hot - (input_power + cooling_power) * hot_side_sink_rj`
with `input_power = voltage * current` (the Kelvin value; the Celsius
conversion `- 273.15` happens only at the rendering boundary). -/
structure SweepPoint where
  t_hot : ℚ
  current : ℚ
  voltage : ℚ
  cooling_power : ℚ
  cop : ℚ
  figure_of_merit : ℚ
  input_power : ℚ
  ambient_temperature : ℚ
deriving DecidableEq

/-- Body of the inner `for current in currents` loop of
`plot_operating_regions` (numeric part; plotting is out of scope). -/
def sweepPoint (self : ThermoElectricCooler) (t_cold hot_side_sink_rj t_hot current : ℚ) :
    Option SweepPoint :=
  (self.operating_params current t_hot t_cold).bind fun p =>
  let voltage := p.1
  let cooling_power := p.2.1
  let cop := p.2.2.1
  let figure_of_merit := p.2.2.2
  let input_power := voltage * current
  let t_ambient := t_hot - (input_power + cooling_power) * hot_side_sink_rj
  some ⟨t_hot, current, voltage, cooling_power, cop, figure_of_merit,
    input_power, t_ambient⟩

/-- A Python `for` loop accumulating one result per element, aborting the whole
iteration at the first raised exception. -/
def optList {α β : Type} (f : α → Option β) : List α → Option (List β)
  | [] => some []
  | x :: xs =>
    (f x).bind fun y =>
    (optList f xs).bind fun ys =>
    some (y :: ys)

/-- The numeric sweep of `plot_operating_regions`: the outer loop runs over
`t_hots` in order, the inner loop over `currents` in order, yielding one group
of points per `t_hot`. -/
def sweep (self : ThermoElectricCooler) (t_cold : ℚ) (currents t_hots : List ℚ)
    (hot_side_sink_rj : ℚ) : Option (List (List SweepPoint)) :=
  optList (fun t_hot =>
    optList (fun current => sweepPoint self t_cold hot_side_sink_rj t_hot current)
      currents) t_hots

/-- Expected first point of the concrete sweep scenario
(`currents=[1, 5]`, `t_hots=[300.15]`, `t_cold=278.15`, sink resistance `0.5`). -/
def cp35_p1 : SweepPoint where
  t_hot := 6003/20
  current := 1
  voltage := 724874/210105
  cooling_power := 19607411/4202100
  cop := 332329/245720
  figure_of_merit := 56000/21187609
  input_power := 724874/210105
  ambient_temperature := 829471913/2801400

/-- Expected second point of the concrete sweep scenario. -/
def cp35_p2 : SweepPoint where
  t_hot := 6003/20
  current := 5
  voltage := 193166/14007
  cooling_power := 24350657/1400700
  cop := 412723/1637000
  figure_of_merit := 56000/21187609
  input_power := 965830/14007
  ambient_temperature := 239968851/933800

theorem pydiv_eq_some {a b : ℚ} (hb : b ≠ 0) : pydiv a b = some (a / b) := by
  simp [pydiv, hb]

theorem pydiv_zero (a : ℚ) : pydiv a 0 = none := by
  simp [pydiv]

theorem seebeck_coefficient_eq (d : ThermoElectricCooler) {t_hot : ℚ} (ht : t_hot ≠ 0) :
    d.seebeck_coefficient t_hot = some (d.v_max / t_hot) :=
  pydiv_eq_some ht

theorem module_resistance_eq (d : ThermoElectricCooler) {t_hot : ℚ} (ht : t_hot ≠ 0)
    (hi : d.i_max ≠ 0) :
    d.module_resistance t_hot =
      some ((t_hot - d.delta_t_max_27) * d.v_max / (t_hot * d.i_max)) :=
  pydiv_eq_some (mul_ne_zero ht hi)

theorem thermal_conductance_eq (d : ThermoElectricCooler) {t_hot : ℚ} (ht : t_hot ≠ 0)
    (hd : d.delta_t_max_27 ≠ 0) :
    d.thermal_conductance t_hot =
      some ((t_hot - d.delta_t_max_27) * d.v_max * d.i_max /
        (2 * t_hot * d.delta_t_max_27)) :=
  pydiv_eq_some (by positivity)

theorem figure_of_merit_eq (d : ThermoElectricCooler) {t_hot : ℚ}
    (ht : t_hot ≠ d.delta_t_max_27) :
    d.figure_of_merit t_hot =
      some (2 * d.delta_t_max_27 / (t_hot - d.delta_t_max_27) ^ 2) :=
  pydiv_eq_some (pow_ne_zero 2 (sub_ne_zero.mpr ht))

/-- C1: for `t_hot` strictly above `delta_t_max_27`, the COP component of
`operating_params` agrees with the standalone `coefficient_of_performance`
accessor on identical inputs, including agreement on when they raise. -/
theorem cop_composite_standalone_agree (d : ThermoElectricCooler)
    (current t_hot t_cold : ℚ) (ht : d.delta_t_max_27 < t_hot) :
    Option.map (fun p => p.2.2.1) (d.operating_params current t_hot t_cold) =
      d.coefficient_of_performance current t_hot t_cold := by
  have hfom := figure_of_merit_eq d ht.ne'
  simp only [ThermoElectricCooler.operating_params,
    ThermoElectricCooler.coefficient_of_performance]
  cases hv : d.voltage current t_hot t_cold with
  | none => simp
  | some v =>
    cases hq : d.cooling_power current t_hot t_cold with
    | none => simp
    | some q =>
      rw [hfom]
      cases hc : pydiv q (v * current) <;> simp [hc]

/-- C1 witness at a concrete operating point of `CP353047`. -/
theorem cop_composite_standalone_agree_witness :
    CP353047.delta_t_max_27 < 300.15 ∧
    Option.map (fun p => p.2.2.1) (CP353047.operating_params 1 300.15 278.15) =
      CP353047.coefficient_of_performance 1 300.15 278.15 :=
  ⟨by norm_num [CP353047],
    cop_composite_standalone_agree CP353047 1 300.15 278.15 (by norm_num [CP353047])⟩

theorem voltage_eq (d : ThermoElectricCooler) (current t_cold : ℚ) {t_hot : ℚ}
    (ht : t_hot ≠ 0) (hi : d.i_max ≠ 0) :
    d.voltage current t_hot t_cold =
      some (d.v_max / t_hot * (t_hot - t_cold) +
        (t_hot - d.delta_t_max_27) * d.v_max / (t_hot * d.i_max) * current) := by
  simp only [ThermoElectricCooler.voltage, module_resistance_eq d ht hi,
    seebeck_coefficient_eq d ht, Option.some_bind]

theorem cooling_power_eq (d : ThermoElectricCooler) (current t_cold : ℚ) {t_hot : ℚ}
    (ht : t_hot ≠ 0) (hi : d.i_max ≠ 0) (hd : d.delta_t_max_27 ≠ 0) :
    d.cooling_power current t_hot t_cold =
      some (d.v_max / t_hot * t_cold * current -
        0.5 * current ^ 2 * ((t_hot - d.delta_t_max_27) * d.v_max / (t_hot * d.i_max)) -
        (t_hot - d.delta_t_max_27) * d.v_max * d.i_max / (2 * t_hot * d.delta_t_max_27) *
          (t_hot - t_cold)) := by
  simp only [ThermoElectricCooler.cooling_power, module_resistance_eq d ht hi,
    seebeck_coefficient_eq d ht, thermal_conductance_eq d ht hd, Option.some_bind]

/-- C2: for a valid device and `t_hot` above both `delta_t_max_27` and zero,
`cooling_power` returns (never raises) exactly the Peltier term minus Joule
heating minus conduction back-leak, built from the standalone accessors. -/
theorem cooling_power_formula (d : ThermoElectricCooler) (current t_hot t_cold : ℚ)
    (hd : 0 < d.delta_t_max_27) (hi : 0 < d.i_max)
    (ht : d.delta_t_max_27 < t_hot) (ht0 : 0 < t_hot) :
    ∃ s r k, d.seebeck_coefficient t_hot = some s ∧
      d.module_resistance t_hot = some r ∧
      d.thermal_conductance t_hot = some k ∧
      d.cooling_power current t_hot t_cold =
        some (s * t_cold * current - 0.5 * current ^ 2 * r - k * (t_hot - t_cold)) :=
  ⟨_, _, _, seebeck_coefficient_eq d ht0.ne', module_resistance_eq d ht0.ne' hi.ne',
    thermal_conductance_eq d ht0.ne' hd.ne', cooling_power_eq d current t_cold ht0.ne'
      hi.ne' hd.ne'⟩

/-- C2 witness at a concrete operating point of `CP353047`. -/
theorem cooling_power_formula_witness :
    0 < CP353047.delta_t_max_27 ∧ 0 < CP353047.i_max ∧
    CP353047.delta_t_max_27 < 300.15 ∧ (0 : ℚ) < 300.15 ∧
    (∃ s r k, CP353047.seebeck_coefficient 300.15 = some s ∧
      CP353047.module_resistance 300.15 = some r ∧
      CP353047.thermal_conductance 300.15 = some k ∧
      CP353047.cooling_power 5 300.15 278.15 =
        some (s * 278.15 * 5 - 0.5 * 5 ^ 2 * r - k * (300.15 - 278.15))) :=
  ⟨by norm_num [CP353047], by norm_num [CP353047], by norm_num [CP353047], by norm_num,
    cooling_power_formula CP353047 5 300.15 278.15 (by norm_num [CP353047])
      (by norm_num [CP353047]) (by norm_num [CP353047]) (by norm_num)⟩

/-- C3: for valid inputs, `voltage` returns (never raises) exactly
`seebeck_coefficient(t_hot) * (t_hot - t_cold) + module_resistance(t_hot) * current`;
over `ℚ` the identity is exact, hence within any floating-point tolerance. -/
theorem voltage_formula (d : ThermoElectricCooler) (current t_hot t_cold : ℚ)
    (hi : 0 < d.i_max) (ht : d.delta_t_max_27 < t_hot) (ht0 : 0 < t_hot) :
    ∃ s r, d.seebeck_coefficient t_hot = some s ∧
      d.module_resistance t_hot = some r ∧
      d.voltage current t_hot t_cold = some (s * (t_hot - t_cold) + r * current) :=
  ⟨_, _, seebeck_coefficient_eq d ht0.ne', module_resistance_eq d ht0.ne' hi.ne',
    voltage_eq d current t_cold ht0.ne' hi.ne'⟩

/-- C3 witness at a concrete operating point of `CP353047`. -/
theorem voltage_formula_witness :
    0 < CP353047.i_max ∧ CP353047.delta_t_max_27 < 300.15 ∧ (0 : ℚ) < 300.15 ∧
    (∃ s r, CP353047.seebeck_coefficient 300.15 = some s ∧
      CP353047.module_resistance 300.15 = some r ∧
      CP353047.voltage 5 300.15 278.15 = some (s * (300.15 - 278.15) + r * 5)) :=
  ⟨by norm_num [CP353047], by norm_num [CP353047], by norm_num,
    voltage_formula CP353047 5 300.15 278.15 (by norm_num [CP353047])
      (by norm_num [CP353047]) (by norm_num)⟩

/-- C10: for a device with positive ratings and `t_hot` strictly above
`delta_t_max_27`, all four derived quantities return strictly positive values. -/
theorem derived_quantities_pos (d : ThermoElectricCooler) (t_hot : ℚ)
    (hv : 0 < d.v_max) (hi : 0 < d.i_max) (hd : 0 < d.delta_t_max_27)
    (ht : d.delta_t_max_27 < t_hot) :
    ∃ s k r z, d.seebeck_coefficient t_hot = some s ∧ 0 < s ∧
      d.thermal_conductance t_hot = some k ∧ 0 < k ∧
      d.module_resistance t_hot = some r ∧ 0 < r ∧
      d.figure_of_merit t_hot = some z ∧ 0 < z := by
  have ht0 : 0 < t_hot := hd.trans ht
  have hsub : 0 < t_hot - d.delta_t_max_27 := sub_pos.mpr ht
  refine ⟨_, _, _, _, seebeck_coefficient_eq d ht0.ne', div_pos hv ht0,
    thermal_conductance_eq d ht0.ne' hd.ne', ?_,
    module_resistance_eq d ht0.ne' hi.ne', ?_,
    figure_of_merit_eq d ht.ne', ?_⟩
  · exact div_pos (mul_pos (mul_pos hsub hv) hi) (by positivity)
  · exact div_pos (mul_pos hsub hv) (by positivity)
  · exact div_pos (by positivity) (pow_pos hsub 2)

/-- C10 witness at `CP353047` and `t_hot = 300.15`. -/
theorem derived_quantities_pos_witness :
    0 < CP353047.v_max ∧ 0 < CP353047.i_max ∧ 0 < CP353047.delta_t_max_27 ∧
    CP353047.delta_t_max_27 < 300.15 ∧
    (∃ s k r z, CP353047.seebeck_coefficient 300.15 = some s ∧ 0 < s ∧
      CP353047.thermal_conductance 300.15 = some k ∧ 0 < k ∧
      CP353047.module_resistance 300.15 = some r ∧ 0 < r ∧
      CP353047.figure_of_merit 300.15 = some z ∧ 0 < z) :=
  ⟨by norm_num [CP353047], by norm_num [CP353047], by norm_num [CP353047],
    by norm_num [CP353047],
    derived_quantities_pos CP353047 300.15 (by norm_num [CP353047])
      (by norm_num [CP353047]) (by norm_num [CP353047]) (by norm_num [CP353047])⟩

/-- C6 counterexample: at `t_hot = 70 = delta_t_max_27` on `CP353047`,
`operating_params` raises (the `figure_of_merit` division) although
`voltage * current` is nonzero, refuting "fails exactly when
`voltage * current == 0`". -/
theorem operating_params_divzero_counterexample :
    CP353047.operating_params 1 70 60 = none ∧
    CP353047.voltage 1 70 60 = some (59/35) ∧ (59/35 : ℚ) * 1 ≠ 0 := by
  refine ⟨?_, ?_, by norm_num⟩ <;>
    norm_num [CP353047, ThermoElectricCooler.operating_params,
      ThermoElectricCooler.voltage, ThermoElectricCooler.cooling_power,
      ThermoElectricCooler.figure_of_merit, ThermoElectricCooler.seebeck_coefficient,
      ThermoElectricCooler.thermal_conductance, ThermoElectricCooler.module_resistance,
      pydiv]

/-- C6 amended: away from the other division singularities (`t_hot ≠ 0`,
`t_hot ≠ delta_t_max_27`, `i_max ≠ 0`, `delta_t_max_27 ≠ 0`), `operating_params`
raises a division-by-zero exactly when `voltage * current == 0`, and otherwise
returns `(voltage, cooling_power, cooling_power / (voltage * current),
figure_of_merit)`. -/
theorem operating_params_divzero_iff (d : ThermoElectricCooler)
    (current t_hot t_cold : ℚ) (ht0 : t_hot ≠ 0) (hi : d.i_max ≠ 0)
    (hd : d.delta_t_max_27 ≠ 0) (htd : t_hot ≠ d.delta_t_max_27) :
    ∃ v q z, d.voltage current t_hot t_cold = some v ∧
      d.cooling_power current t_hot t_cold = some q ∧
      d.figure_of_merit t_hot = some z ∧
      (v * current = 0 → d.operating_params current t_hot t_cold = none) ∧
      (v * current ≠ 0 →
        d.operating_params current t_hot t_cold =
          some (v, q, q / (v * current), z)) := by
  refine ⟨_, _, _, voltage_eq d current t_cold ht0 hi,
    cooling_power_eq d current t_cold ht0 hi hd, figure_of_merit_eq d htd, ?_, ?_⟩
  · intro h0
    simp only [ThermoElectricCooler.operating_params, voltage_eq d current t_cold ht0 hi,
      cooling_power_eq d current t_cold ht0 hi hd, figure_of_merit_eq d htd,
      Option.some_bind, h0, pydiv_zero, Option.none_bind]
  · intro h0
    simp only [ThermoElectricCooler.operating_params, voltage_eq d current t_cold ht0 hi,
      cooling_power_eq d current t_cold ht0 hi hd, figure_of_merit_eq d htd,
      Option.some_bind, pydiv_eq_some h0]

/-- C6 witness at a concrete operating point of `CP353047`. -/
theorem operating_params_divzero_iff_witness :
    (300.15 : ℚ) ≠ 0 ∧ CP353047.i_max ≠ 0 ∧ CP353047.delta_t_max_27 ≠ 0 ∧
    (300.15 : ℚ) ≠ CP353047.delta_t_max_27 ∧
    (∃ v q z, CP353047.voltage 1 300.15 278.15 = some v ∧
      CP353047.cooling_power 1 300.15 278.15 = some q ∧
      CP353047.figure_of_merit 300.15 = some z ∧
      (v * 1 = 0 → CP353047.operating_params 1 300.15 278.15 = none) ∧
      (v * 1 ≠ 0 →
        CP353047.operating_params 1 300.15 278.15 = some (v, q, q / (v * 1), z))) :=
  ⟨by norm_num, by norm_num [CP353047], by norm_num [CP353047], by norm_num [CP353047],
    operating_params_divzero_iff CP353047 1 300.15 278.15 (by norm_num)
      (by norm_num [CP353047]) (by norm_num [CP353047]) (by norm_num [CP353047])⟩

/-- C7 counterexample: on `CP353047`, `t_hot = 1` is well below
`delta_t_max_27 = 70`, yet `operating_params` raises nothing and returns a
normal 4-tuple — the code performs no precondition validation for
`t_hot < delta_t_max_27`. -/
theorem invalid_operating_point_counterexample :
    (1 : ℚ) ≤ CP353047.delta_t_max_27 ∧
    CP353047.operating_params 1 1 0 =
      some (-7729/35, 191337/1400, -3243/5240, 140/4761) := by
  constructor
  · norm_num [CP353047]
  · norm_num [CP353047, ThermoElectricCooler.operating_params,
      ThermoElectricCooler.voltage, ThermoElectricCooler.cooling_power,
      ThermoElectricCooler.figure_of_merit, ThermoElectricCooler.seebeck_coefficient,
      ThermoElectricCooler.thermal_conductance, ThermoElectricCooler.module_resistance,
      pydiv]

/-- C7 amended: an error is raised only at the actual singularities: when
`t_hot` equals `delta_t_max_27` (the `figure_of_merit` division), and whenever
`current == 0` is supplied to a COP-dependent computation (`operating_params`
or `coefficient_of_performance`); strict `t_hot < delta_t_max_27` is not
validated. -/
theorem error_raised_at_boundary (d : ThermoElectricCooler)
    (current t_hot t_cold : ℚ) :
    (t_hot = d.delta_t_max_27 →
      d.figure_of_merit t_hot = none ∧
      d.operating_params current t_hot t_cold = none) ∧
    d.operating_params 0 t_hot t_cold = none ∧
    d.coefficient_of_performance 0 t_hot t_cold = none := by
  have hfom : t_hot = d.delta_t_max_27 → d.figure_of_merit t_hot = none := by
    intro ht
    simp [ThermoElectricCooler.figure_of_merit, ht, pydiv]
  refine ⟨fun ht => ⟨hfom ht, ?_⟩, ?_, ?_⟩
  · simp only [ThermoElectricCooler.operating_params]
    cases hv : d.voltage current t_hot t_cold with
    | none => rfl
    | some v =>
      cases hq : d.cooling_power current t_hot t_cold with
      | none => rfl
      | some q => simp [hfom ht]
  · simp only [ThermoElectricCooler.operating_params]
    cases hv : d.voltage 0 t_hot t_cold with
    | none => rfl
    | some v =>
      cases hq : d.cooling_power 0 t_hot t_cold with
      | none => rfl
      | some q =>
        cases hz : d.figure_of_merit t_hot with
        | none => rfl
        | some z => simp [pydiv]
  · simp only [ThermoElectricCooler.coefficient_of_performance]
    cases hv : d.voltage 0 t_hot t_cold with
    | none => rfl
    | some v =>
      cases hq : d.cooling_power 0 t_hot t_cold with
      | none => rfl
      | some q => simp [pydiv]

/-- C7 witness: the boundary equality case and the `current == 0` case, at
concrete inputs on `CP353047`. -/
theorem error_raised_at_boundary_witness :
    (CP353047.figure_of_merit 70 = none ∧
      CP353047.operating_params 1 70 60 = none) ∧
    CP353047.operating_params 0 300.15 278.15 = none ∧
    CP353047.coefficient_of_performance 0 300.15 278.15 = none :=
  ⟨(error_raised_at_boundary CP353047 1 70 60).1 (by norm_num [CP353047]),
    (error_raised_at_boundary CP353047 0 300.15 278.15).2⟩

theorem optList_length {α β : Type} (f : α → Option β) :
    ∀ {xs : List α} {ys : List β}, optList f xs = some ys → ys.length = xs.length := by
  intro xs
  induction xs with
  | nil =>
    intro ys h
    simp only [optList, Option.some.injEq] at h
    simp [← h]
  | cons x xs ih =>
    intro ys h
    simp only [optList, Option.bind_eq_some, Option.some.injEq] at h
    obtain ⟨y, hy, ys', hys', rfl⟩ := h
    simp [ih hys']

theorem optList_map_eq {α β γ : Type} {f : α → Option β} (g : β → γ) (h : α → γ)
    (hfg : ∀ x y, f x = some y → g y = h x) :
    ∀ {xs : List α} {ys : List β}, optList f xs = some ys → ys.map g = xs.map h := by
  intro xs
  induction xs with
  | nil =>
    intro ys hx
    simp only [optList, Option.some.injEq] at hx
    simp [← hx]
  | cons x xs ih =>
    intro ys hx
    simp only [optList, Option.bind_eq_some, Option.some.injEq] at hx
    obtain ⟨y, hy, ys', hys', rfl⟩ := hx
    simp [ih hys', hfg x y hy]

theorem sweepPoint_fields {d : ThermoElectricCooler} {t_cold rj t_hot current : ℚ}
    {p : SweepPoint} (h : sweepPoint d t_cold rj t_hot current = some p) :
    p.t_hot = t_hot ∧ p.current = current := by
  simp only [sweepPoint, Option.bind_eq_some, Option.some.injEq] at h
  obtain ⟨q, hq, hp⟩ := h
  simp [← hp]

theorem map_const_mem {α γ : Type} {l : List α} {c y : γ}
    (h : y ∈ l.map fun _ => c) : y = c := by
  obtain ⟨x, hx, hxy⟩ := List.mem_map.mp h
  exact hxy.symm

theorem sum_map_const {α : Type} (l : List α) (n : ℕ) :
    (l.map fun _ => n).sum = l.length * n := by
  induction l with
  | nil => simp
  | cons x xs ih => simp [ih, Nat.succ_mul, Nat.add_comm]

/-- C4: a successful sweep over `t_hots` of length M and `currents` of length N
yields exactly M groups (one per `t_hot`, in input order), each of N points
(one per `current`, in input order), for M*N points in total. -/
theorem sweep_shape (d : ThermoElectricCooler) (t_cold rj : ℚ)
    (currents t_hots : List ℚ) (groups : List (List SweepPoint))
    (hM : t_hots ≠ []) (hN : currents ≠ [])
    (h : sweep d t_cold currents t_hots rj = some groups) :
    groups.length = t_hots.length ∧
    (∀ g ∈ groups, g.length = currents.length) ∧
    (groups.map List.length).sum = t_hots.length * currents.length ∧
    groups.map (List.map SweepPoint.t_hot) =
      t_hots.map (fun t => currents.map fun _ => t) ∧
    groups.map (List.map SweepPoint.current) = t_hots.map fun _ => currents := by
  have hlen : groups.map List.length = t_hots.map fun _ => currents.length :=
    optList_map_eq List.length (fun _ => currents.length)
      (fun t g hg => optList_length _ hg) h
  refine ⟨optList_length _ h, ?_, ?_, ?_, ?_⟩
  · intro g hg
    exact map_const_mem (hlen ▸ List.mem_map_of_mem List.length hg)
  · rw [hlen, sum_map_const]
  · exact optList_map_eq (List.map SweepPoint.t_hot)
      (fun t => currents.map fun _ => t)
      (fun t g hg => optList_map_eq SweepPoint.t_hot (fun _ => t)
        (fun c p hp => (sweepPoint_fields hp).1) hg) h
  · refine optList_map_eq (List.map SweepPoint.current) (fun _ => currents)
      (fun t g hg => ?_) h
    have := optList_map_eq SweepPoint.current id
      (fun c p hp => (sweepPoint_fields hp).2) hg
    simpa using this

theorem sweep_concrete :
    sweep CP353047 278.15 [1, 5] [300.15] 0.5 = some [[cp35_p1, cp35_p2]] := by
  norm_num [sweep, optList, sweepPoint, CP353047, cp35_p1, cp35_p2,
    ThermoElectricCooler.operating_params, ThermoElectricCooler.voltage,
    ThermoElectricCooler.cooling_power, ThermoElectricCooler.figure_of_merit,
    ThermoElectricCooler.seebeck_coefficient, ThermoElectricCooler.thermal_conductance,
    ThermoElectricCooler.module_resistance, pydiv, SweepPoint.mk.injEq]

theorem sweepPoint_concrete :
    sweepPoint CP353047 278.15 0.5 300.15 1 = some cp35_p1 := by
  norm_num [sweepPoint, CP353047, cp35_p1,
    ThermoElectricCooler.operating_params, ThermoElectricCooler.voltage,
    ThermoElectricCooler.cooling_power, ThermoElectricCooler.figure_of_merit,
    ThermoElectricCooler.seebeck_coefficient, ThermoElectricCooler.thermal_conductance,
    ThermoElectricCooler.module_resistance, pydiv, SweepPoint.mk.injEq]

/-- C4 witness: the concrete sweep of `CP353047` with `currents = [1, 5]` and
`t_hots = [300.15]`. -/
theorem sweep_shape_witness :
    ([(300.15 : ℚ)] ≠ []) ∧ ([(1 : ℚ), 5] ≠ []) ∧
    ([[cp35_p1, cp35_p2]].length = [(300.15 : ℚ)].length ∧
      (∀ g ∈ [[cp35_p1, cp35_p2]], g.length = [(1 : ℚ), 5].length) ∧
      ([[cp35_p1, cp35_p2]].map List.length).sum =
        [(300.15 : ℚ)].length * [(1 : ℚ), 5].length ∧
      [[cp35_p1, cp35_p2]].map (List.map SweepPoint.t_hot) =
        [(300.15 : ℚ)].map (fun t => [(1 : ℚ), 5].map fun _ => t) ∧
      [[cp35_p1, cp35_p2]].map (List.map SweepPoint.current) =
        [(300.15 : ℚ)].map fun _ => [(1 : ℚ), 5]) :=
  ⟨by simp, by simp,
    sweep_shape CP353047 278.15 0.5 [1, 5] [300.15] [[cp35_p1, cp35_p2]]
      (by simp) (by simp) sweep_concrete⟩

/-- C5: each sweep point derives `input_power = voltage * current` and
`ambient_temperature = t_hot - (input_power + cooling_power) * sink_rj` from the
`operating_params` tuple; and the concrete sweep (`currents=[1, 5]`,
`t_hots=[300.15]`, `t_cold=278.15`, sink resistance `0.5`) produces exactly two
points, both at `t_hot = 300.15`, where the point with the larger dissipated
power has the lower ambient temperature. -/
theorem sweep_point_ambient_formula :
    (∀ (d : ThermoElectricCooler) (t_cold rj t_hot current : ℚ) (p : SweepPoint),
      sweepPoint d t_cold rj t_hot current = some p →
      ∃ v q cop z, d.operating_params current t_hot t_cold = some (v, q, cop, z) ∧
        p.input_power = v * current ∧
        p.ambient_temperature = t_hot - (p.input_power + q) * rj) ∧
    (∃ p1 p2, sweep CP353047 278.15 [1, 5] [300.15] 0.5 = some [[p1, p2]] ∧
      p1.t_hot = 300.15 ∧ p2.t_hot = 300.15 ∧
      p1.input_power + p1.cooling_power < p2.input_power + p2.cooling_power ∧
      p2.ambient_temperature < p1.ambient_temperature) := by
  constructor
  · intro d t_cold rj t_hot current p h
    simp only [sweepPoint, Option.bind_eq_some, Option.some.injEq] at h
    obtain ⟨u, hu, hp⟩ := h
    subst hp
    exact ⟨u.1, u.2.1, u.2.2.1, u.2.2.2, hu, rfl, rfl⟩
  · refine ⟨cp35_p1, cp35_p2, sweep_concrete, ?_, ?_, ?_, ?_⟩ <;>
      norm_num [cp35_p1, cp35_p2]

/-- C5 witness: the per-point formulas instantiated at the first point of the
concrete sweep. -/
theorem sweep_point_ambient_formula_witness :
    sweepPoint CP353047 278.15 0.5 300.15 1 = some cp35_p1 ∧
    (∃ v q cop z, CP353047.operating_params 1 300.15 278.15 = some (v, q, cop, z) ∧
      cp35_p1.input_power = v * 1 ∧
      cp35_p1.ambient_temperature = 300.15 - (cp35_p1.input_power + q) * 0.5) :=
  ⟨sweepPoint_concrete,
    sweep_point_ambient_formula.1 CP353047 278.15 0.5 300.15 1 cp35_p1
      sweepPoint_concrete⟩

/-- C9 counterexample: the formula value `(300.15-70)*11.8/(300.15*3.5)` is
`543154/210105 ≈ 2.58516`, which is NOT within `1e-3` of the spec's stated
regression value `2.5669`. -/
theorem module_resistance_regression_counterexample :
    CP353047.module_resistance 300.15 = some (543154/210105) ∧
    ¬ |(543154/210105 : ℚ) - 2.5669| ≤ 1/1000 := by
  constructor
  · norm_num [CP353047, ThermoElectricCooler.module_resistance, pydiv]
  · norm_num [abs_le]

/-- C9 amended: at `t_hot = 300.15` on `CP353047`, `module_resistance` is
within `1e-3` of `2.5852` (not `2.5669`) and `seebeck_coefficient` is within
`1e-3` of `0.03932`. -/
theorem module_resistance_seebeck_regression :
    CP353047.module_resistance 300.15 = some (543154/210105) ∧
    |(543154/210105 : ℚ) - 2.5852| ≤ 1/1000 ∧
    CP353047.seebeck_coefficient 300.15 = some (236/6003) ∧
    |(236/6003 : ℚ) - 0.03932| ≤ 1/1000 := by
  refine ⟨?_, by norm_num [abs_le], ?_, by norm_num [abs_le]⟩
  · norm_num [CP353047, ThermoElectricCooler.module_resistance, pydiv]
  · norm_num [CP353047, ThermoElectricCooler.seebeck_coefficient, pydiv]

/-- C8 counterexample: `module_resistance` does NOT diverge as
`t_hot → delta_t_max_27⁺` on `CP353047`: within `1/1000` above the boundary it
never exceeds the bound `1` (it vanishes toward `0`), refuting the claim that
all three quantities blow up. -/
theorem module_resistance_not_diverge :
    ¬ (∀ B : ℚ, ∃ t r, CP353047.delta_t_max_27 < t ∧
        t < CP353047.delta_t_max_27 + 1/1000 ∧
        CP353047.module_resistance t = some r ∧ B < r) := by
  intro h
  obtain ⟨t, r, h1, h2, h3, h4⟩ := h 1
  have hd : CP353047.delta_t_max_27 = 70 := by norm_num [CP353047]
  rw [hd] at h1 h2
  have ht0 : (0:ℚ) < t := by linarith
  have hi : CP353047.i_max ≠ 0 := by norm_num [CP353047]
  rw [module_resistance_eq CP353047 ht0.ne' hi, hd] at h3
  have hvi : CP353047.v_max = 59/5 ∧ CP353047.i_max = 7/2 := by norm_num [CP353047]
  rw [hvi.1, hvi.2] at h3
  simp only [Option.some.injEq] at h3
  subst h3
  have hden : (0:ℚ) < t * (7/2) := by nlinarith
  rw [lt_div_iff hden] at h4
  linarith

/-- C8 amended: as `t_hot → delta_t_max_27⁺` (for a device with positive
ratings), `figure_of_merit` diverges to infinity with a monotone blow-up, while
`module_resistance` and `thermal_conductance` instead vanish: each is
eventually below every positive bound near the boundary. -/
theorem boundary_behavior_amended (d : ThermoElectricCooler)
    (hv : 0 < d.v_max) (hi : 0 < d.i_max) (hd : 0 < d.delta_t_max_27) :
    (∀ B eps : ℚ, 0 < eps → ∃ t z, d.delta_t_max_27 < t ∧
      t < d.delta_t_max_27 + eps ∧ d.figure_of_merit t = some z ∧ B < z) ∧
    (∀ t1 t2 z1 z2, d.delta_t_max_27 < t1 → t1 < t2 →
      d.figure_of_merit t1 = some z1 → d.figure_of_merit t2 = some z2 → z2 < z1) ∧
    (∀ B : ℚ, 0 < B → ∃ eps, 0 < eps ∧ ∀ t r, d.delta_t_max_27 < t →
      t < d.delta_t_max_27 + eps → d.module_resistance t = some r → r < B) ∧
    (∀ B : ℚ, 0 < B → ∃ eps, 0 < eps ∧ ∀ t k, d.delta_t_max_27 < t →
      t < d.delta_t_max_27 + eps → d.thermal_conductance t = some k → k < B) := by
  refine ⟨?_, ?_, ?_, ?_⟩
  · intro B eps heps
    have hmax : (0:ℚ) < max B 1 := lt_of_lt_of_le one_pos (le_max_right B 1)
    have he : 0 < min (eps/2) (min d.delta_t_max_27 (1/(max B 1))) := by
      refine lt_min (by linarith) (lt_min hd (by positivity))
    set e := min (eps/2) (min d.delta_t_max_27 (1/(max B 1))) with hedef
    have he1 : e ≤ 1/(max B 1) := le_trans (min_le_right _ _) (min_le_right _ _)
    have he2 : e ≤ d.delta_t_max_27 := le_trans (min_le_right _ _) (min_le_left _ _)
    have heeps : e ≤ eps/2 := min_le_left _ _
    refine ⟨d.delta_t_max_27 + e, 2 * d.delta_t_max_27 / e^2, by linarith, by linarith,
      ?_, ?_⟩
    · rw [figure_of_merit_eq d (by linarith : d.delta_t_max_27 + e ≠ d.delta_t_max_27)]
      rw [add_sub_cancel_left]
    · rw [lt_div_iff (by positivity : (0:ℚ) < e^2)]
      have h1 : e * max B 1 ≤ 1 := (le_div_iff hmax).mp he1
      have hBmax : B ≤ max B 1 := le_max_left _ _
      nlinarith [mul_nonneg (sub_nonneg.mpr hBmax) (sq_nonneg e),
        mul_le_mul_of_nonneg_left h1 he.le]
  · intro t1 t2 z1 z2 h1 h12
    rw [figure_of_merit_eq d h1.ne',
      figure_of_merit_eq d (by linarith : t2 ≠ d.delta_t_max_27)]
    simp only [Option.some.injEq]
    intro hz1 hz2
    subst hz1; subst hz2
    have hs1 : (0:ℚ) < t1 - d.delta_t_max_27 := by linarith
    have hs2 : t1 - d.delta_t_max_27 < t2 - d.delta_t_max_27 := by linarith
    exact div_lt_div_of_pos_left (by positivity) (by positivity) (by nlinarith)
  · intro B hB
    refine ⟨B * d.delta_t_max_27 * d.i_max / d.v_max, by positivity, ?_⟩
    intro t r h1 h2 hr
    have ht0 : (0:ℚ) < t := hd.trans h1
    rw [module_resistance_eq d ht0.ne' hi.ne'] at hr
    simp only [Option.some.injEq] at hr
    subst hr
    rw [div_lt_iff (by positivity : (0:ℚ) < t * d.i_max)]
    have k2 : (t - d.delta_t_max_27) * d.v_max < B * d.delta_t_max_27 * d.i_max := by
      have hlt : t - d.delta_t_max_27 < B * d.delta_t_max_27 * d.i_max / d.v_max := by
        linarith
      have := mul_lt_mul_of_pos_right hlt hv
      rwa [div_mul_cancel₀ _ hv.ne'] at this
    nlinarith [mul_pos hB (mul_pos (sub_pos.mpr h1) hi)]
  · intro B hB
    refine ⟨2 * d.delta_t_max_27^2 * B / (d.v_max * d.i_max), by positivity, ?_⟩
    intro t k h1 h2 hk
    have ht0 : (0:ℚ) < t := hd.trans h1
    rw [thermal_conductance_eq d ht0.ne' hd.ne'] at hk
    simp only [Option.some.injEq] at hk
    subst hk
    rw [div_lt_iff (by positivity : (0:ℚ) < 2 * t * d.delta_t_max_27)]
    have k2 : (t - d.delta_t_max_27) * (d.v_max * d.i_max) <
        2 * d.delta_t_max_27^2 * B := by
      have hlt : t - d.delta_t_max_27 <
          2 * d.delta_t_max_27^2 * B / (d.v_max * d.i_max) := by linarith
      have := mul_lt_mul_of_pos_right hlt (mul_pos hv hi)
      rwa [div_mul_cancel₀ _ (mul_pos hv hi).ne'] at this
    nlinarith [mul_pos (mul_pos hB hd) (sub_pos.mpr h1)]

/-- C8 witness: the amended boundary behavior at `CP353047`. -/
theorem boundary_behavior_amended_witness :
    0 < CP353047.v_max ∧ 0 < CP353047.i_max ∧ 0 < CP353047.delta_t_max_27 ∧
    ((∀ B eps : ℚ, 0 < eps → ∃ t z, CP353047.delta_t_max_27 < t ∧
      t < CP353047.delta_t_max_27 + eps ∧ CP353047.figure_of_merit t = some z ∧ B < z) ∧
    (∀ t1 t2 z1 z2, CP353047.delta_t_max_27 < t1 → t1 < t2 →
      CP353047.figure_of_merit t1 = some z1 →
      CP353047.figure_of_merit t2 = some z2 → z2 < z1) ∧
    (∀ B : ℚ, 0 < B → ∃ eps, 0 < eps ∧ ∀ t r, CP353047.delta_t_max_27 < t →
      t < CP353047.delta_t_max_27 + eps → CP353047.module_resistance t = some r → r < B) ∧
    (∀ B : ℚ, 0 < B → ∃ eps, 0 < eps ∧ ∀ t k, CP353047.delta_t_max_27 < t →
      t < CP353047.delta_t_max_27 + eps → CP353047.thermal_conductance t = some k → k < B)) :=
  ⟨by norm_num [CP353047], by norm_num [CP353047], by norm_num [CP353047],
    boundary_behavior_amended CP353047 (by norm_num [CP353047])
      (by norm_num [CP353047]) (by norm_num [CP353047])⟩
